import Mathlib

/-
Verification of the keyboard-playground global input capture engine.

The development shallowly embeds the two platform implementations:
  * the Linux X11 RECORD plugin (src/linux/input_capture_plugin.cc), and
  * the Windows low-level hook plugin (src/windows/runner/input_capture_plugin.cpp).

Event maps built over the Flutter channel value model are represented as
association lists with insert/replace and remove operations mirroring
fl_value_set_string_take / fl_value_remove and EncodableMap assignment.
Controller lifecycle functions are embedded as state transformers that also
emit the trace of OS resource acquisitions and releases they perform.
-/

namespace KeyboardPlayground

/-- Model of Flutter channel values (FlValue on Linux, EncodableValue on
Windows): integers, strings, floats (modelled exactly as rationals), and
lists — the only lists the plugins ever build are lists of modifier-name
strings, so the list variant carries strings. -/
inductive FlVal where
  | i (n : Int)
  | s (v : String)
  | f (q : Rat)
  | l (vs : List String)
deriving DecidableEq

/-- An event payload: an association list of string-keyed channel values. -/
abbrev EventMap := List (String × FlVal)

/-- Mirrors fl_value_set_string_take / map assignment: replace the value of an
existing key in place, otherwise append the new pair. -/
def setKey (m : EventMap) (k : String) (v : FlVal) : EventMap :=
  if m.any (fun p => p.1 = k) then
    m.map (fun p => if p.1 = k then (k, v) else p)
  else m ++ [(k, v)]

/-- Mirrors fl_value_remove: drop the pair with the given key. -/
def removeKey (m : EventMap) (k : String) : EventMap :=
  m.filter (fun p => ¬ p.1 = k)

/-- Look up the value stored under a key. -/
def lookupKey (m : EventMap) (k : String) : Option FlVal :=
  (m.find? (fun p => p.1 = k)).map (fun p => p.2)

/-- The list of keys present in an event map. -/
def keysOf (m : EventMap) : List String := m.map (fun p => p.1)

/-- The switch statement of keycode_to_string (Linux), embedded as its case
table in source order: each entry is the KeySym labels sharing one body and
the name that body returns. -/
def linuxKeySymTable : List (List Nat × String) :=
  [([0xff0d], "Return"),
   ([0xff09], "Tab"),
   ([0xff08], "Backspace"),
   ([0xff1b], "Escape"),
   ([0xffff], "Delete"),
   ([0xff50], "Home"),
   ([0xff57], "End"),
   ([0xff55], "PageUp"),
   ([0xff56], "PageDown"),
   ([0xff51], "Left"),
   ([0xff53], "Right"),
   ([0xff52], "Up"),
   ([0xff54], "Down"),
   ([0xffbe], "F1"),
   ([0xffbf], "F2"),
   ([0xffc0], "F3"),
   ([0xffc1], "F4"),
   ([0xffc2], "F5"),
   ([0xffc3], "F6"),
   ([0xffc4], "F7"),
   ([0xffc5], "F8"),
   ([0xffc6], "F9"),
   ([0xffc7], "F10"),
   ([0xffc8], "F11"),
   ([0xffc9], "F12"),
   ([0xffe1, 0xffe2], "Shift"),
   ([0xffe3, 0xffe4], "Control"),
   ([0xffe9, 0xffea], "Alt"),
   ([0xffeb, 0xffec], "Super")]

/-- Embeds keycode_to_string (Linux): X11 KeySym to canonical key name.
Printable range XK_space..XK_asciitilde becomes the single character; the
switch over special KeySyms is the table lookup; anything else falls back to
"Key%lu" (the KeySym printed in decimal). -/
def keycode_to_string (keysym : Nat) : String :=
  if 0x20 ≤ keysym ∧ keysym ≤ 0x7e then String.mk [Char.ofNat keysym]
  else
    match linuxKeySymTable.find? (fun e => e.1.contains keysym) with
    | some e => e.2
    | none => "Key" ++ toString keysym

/-- The switch statement of VKeyToString (Windows), embedded as its case
table in source order. -/
def winVKeyTable : List (List Nat × String) :=
  [([0x0d], "Return"),
   ([0x09], "Tab"),
   ([0x08], "Backspace"),
   ([0x1b], "Escape"),
   ([0x2e], "Delete"),
   ([0x24], "Home"),
   ([0x23], "End"),
   ([0x21], "PageUp"),
   ([0x22], "PageDown"),
   ([0x25], "Left"),
   ([0x27], "Right"),
   ([0x26], "Up"),
   ([0x28], "Down"),
   ([0x20], "Space"),
   ([0x70], "F1"),
   ([0x71], "F2"),
   ([0x72], "F3"),
   ([0x73], "F4"),
   ([0x74], "F5"),
   ([0x75], "F6"),
   ([0x76], "F7"),
   ([0x77], "F8"),
   ([0x78], "F9"),
   ([0x79], "F10"),
   ([0x7a], "F11"),
   ([0x7b], "F12"),
   ([0x10, 0xa0, 0xa1], "Shift"),
   ([0x11, 0xa2, 0xa3], "Control"),
   ([0x12, 0xa4, 0xa5], "Alt"),
   ([0x5b, 0x5c], "Meta")]

/-- Embeds VKeyToString (Windows): virtual-key code to canonical key name.
Digits map to themselves, letters to their lowercase character, the switch
over special VK codes is the table lookup, anything else falls back to
"Key" + decimal code. -/
def VKeyToString (vkCode : Nat) : String :=
  if 0x30 ≤ vkCode ∧ vkCode ≤ 0x39 then String.mk [Char.ofNat vkCode]
  else if 0x41 ≤ vkCode ∧ vkCode ≤ 0x5a then String.mk [Char.ofNat (vkCode + 32)]
  else
    match winVKeyTable.find? (fun e => e.1.contains vkCode) with
    | some e => e.2
    | none => "Key" ++ toString vkCode

/-- Modifier list built from the X11 state byte: ShiftMask (bit 0),
ControlMask (bit 2), Mod1Mask = Alt (bit 3), Mod4Mask = Super/Meta (bit 6). -/
def linuxModifiers (modState : Nat) : List String :=
  (if modState &&& 1 ≠ 0 then ["shift"] else []) ++
  (if modState &&& 4 ≠ 0 then ["control"] else []) ++
  (if modState &&& 8 ≠ 0 then ["alt"] else []) ++
  (if modState &&& 64 ≠ 0 then ["meta"] else [])

/-- Signed little-endian 16-bit read at a byte offset, as done by the casts
of bytes 24..27 of the raw xEvent wire record. -/
def int16At (data : Nat → Nat) (off : Nat) : Int :=
  let v := (data off % 256) + 256 * (data (off + 1) % 256)
  if v < 32768 then (v : Int) else (v : Int) - 65536

/-- Embeds record_event_callback (Linux): decode one XRecord intercept.
`category` models data->category (0 = XRecordFromServer), `data` the raw byte
array, `keymap` the XKeycodeToKeysym lookup on the query display, `now` the
wall-clock timestamp in milliseconds. Returns the event map handed to
send_event_to_dart, or none when the record is discarded. Event type codes:
KeyPress 2, KeyRelease 3, ButtonPress 4, ButtonRelease 5, MotionNotify 6. -/
def record_event_callback (keymap : Nat → Nat) (now : Int) (category : Nat)
    (data : Nat → Nat) : Option EventMap :=
  if category ≠ 0 then none
  else
    let et := data 0 % 128
    let m0 := setKey [] "timestamp" (FlVal.i now)
    if et = 2 ∨ et = 3 then
      let m1 := setKey m0 "type" (FlVal.s (if et = 2 then "keyDown" else "keyUp"))
      let keycode := data 1 % 256
      let m2 := setKey m1 "keyCode" (FlVal.i (keycode : Int))
      let m3 := setKey m2 "key" (FlVal.s (keycode_to_string (keymap keycode)))
      some (setKey m3 "modifiers" (FlVal.l (linuxModifiers (data 28 % 256))))
    else if et = 4 ∨ et = 5 then
      let m1 := setKey m0 "type" (FlVal.s (if et = 4 then "mouseDown" else "mouseUp"))
      let button := data 1 % 256
      let buttonName :=
        if button = 1 then "left"
        else if button = 2 then "middle"
        else if button = 3 then "right"
        else "other"
      let m2 := setKey m1 "button" (FlVal.s buttonName)
      let m3 := setKey m2 "x" (FlVal.f ((int16At data 24 : Int) : Rat))
      let m4 := setKey m3 "y" (FlVal.f ((int16At data 26 : Int) : Rat))
      if 4 ≤ button ∧ button ≤ 7 then
        let m5 := setKey m4 "type" (FlVal.s "mouseScroll")
        let m6 := removeKey m5 "button"
        let deltaX : Rat := if button = 6 then 1 else if button = 7 then -1 else 0
        let deltaY : Rat := if button = 4 then 1 else if button = 5 then -1 else 0
        some (setKey (setKey m6 "deltaX" (FlVal.f deltaX)) "deltaY" (FlVal.f deltaY))
      else some m4
    else if et = 6 then
      let m1 := setKey m0 "type" (FlVal.s "mouseMove")
      let m2 := setKey m1 "x" (FlVal.f ((int16At data 24 : Int) : Rat))
      some (setKey m2 "y" (FlVal.f ((int16At data 26 : Int) : Rat)))
    else none

/-- Live modifier-key state queried via GetAsyncKeyState at decode time. -/
structure ModifierState where
  shift : Bool
  control : Bool
  alt : Bool
  meta : Bool
deriving DecidableEq

/-- The modifier list built by KeyboardHookProc, in its query order. -/
def winModifiers (ms : ModifierState) : List String :=
  (if ms.shift then ["shift"] else []) ++
  (if ms.control then ["control"] else []) ++
  (if ms.alt then ["alt"] else []) ++
  (if ms.meta then ["meta"] else [])

/-- Outcome of one low-level hook invocation: either the event is consumed
(the hook returns the given sentinel value and `sent` is whatever SendEvent
emitted), or it is forwarded down the hook chain via CallNextHookEx with
nothing delivered. -/
inductive HookResult where
  | consumed (sentinel : Int) (sent : List EventMap)
  | forwarded
deriving DecidableEq

/-- Embeds InputCapturePlugin::SendEvent: deliver to the event sink when one
is attached, otherwise do nothing. -/
def SendEvent (sinkAttached : Bool) (ev : EventMap) : List EventMap :=
  if sinkAttached then [ev] else []

/-- Embeds KeyboardHookProc. `instPresent` models `instance_ != nullptr`,
`sinkAttached` models `instance_->event_sink_ != nullptr`. wParam values:
WM_KEYDOWN 0x100, WM_SYSKEYDOWN 0x104 (anything else decodes as keyUp). -/
def KeyboardHookProc (nCode : Int) (instPresent sinkAttached : Bool)
    (now : Int) (wParam : Nat) (vkCode : Nat) (mods : ModifierState) : HookResult :=
  if 0 ≤ nCode ∧ instPresent = true ∧ sinkAttached = true then
    let isDown := wParam = 0x100 ∨ wParam = 0x104
    let m0 := setKey [] "timestamp" (FlVal.i now)
    let m1 := setKey m0 "type" (FlVal.s (if isDown then "keyDown" else "keyUp"))
    let m2 := setKey m1 "keyCode" (FlVal.i (vkCode : Int))
    let m3 := setKey m2 "key" (FlVal.s (VKeyToString vkCode))
    let m4 := setKey m3 "modifiers" (FlVal.l (winModifiers mods))
    HookResult.consumed (-1) (SendEvent sinkAttached m4)
  else HookResult.forwarded

/-- Embeds MouseHookProc. wParam values: WM_MOUSEMOVE 0x200,
WM_LBUTTONDOWN/UP 0x201/0x202, WM_RBUTTONDOWN/UP 0x204/0x205,
WM_MBUTTONDOWN/UP 0x207/0x208, WM_MOUSEWHEEL 0x20a, WM_MOUSEHWHEEL 0x20e.
`wheelDelta` is the signed HIWORD of mouseData; one detent is 120. -/
def MouseHookProc (nCode : Int) (instPresent sinkAttached : Bool)
    (now : Int) (wParam : Nat) (px py : Int) (wheelDelta : Int) : HookResult :=
  if 0 ≤ nCode ∧ instPresent = true ∧ sinkAttached = true then
    let m0 := setKey [] "timestamp" (FlVal.i now)
    if wParam = 0x200 then
      let m1 := setKey m0 "type" (FlVal.s "mouseMove")
      let m2 := setKey m1 "x" (FlVal.f (px : Rat))
      HookResult.consumed 1 (SendEvent sinkAttached (setKey m2 "y" (FlVal.f (py : Rat))))
    else if wParam = 0x201 ∨ wParam = 0x202 then
      let m1 := setKey m0 "type" (FlVal.s (if wParam = 0x201 then "mouseDown" else "mouseUp"))
      let m2 := setKey m1 "button" (FlVal.s "left")
      let m3 := setKey m2 "x" (FlVal.f (px : Rat))
      HookResult.consumed 1 (SendEvent sinkAttached (setKey m3 "y" (FlVal.f (py : Rat))))
    else if wParam = 0x204 ∨ wParam = 0x205 then
      let m1 := setKey m0 "type" (FlVal.s (if wParam = 0x204 then "mouseDown" else "mouseUp"))
      let m2 := setKey m1 "button" (FlVal.s "right")
      let m3 := setKey m2 "x" (FlVal.f (px : Rat))
      HookResult.consumed 1 (SendEvent sinkAttached (setKey m3 "y" (FlVal.f (py : Rat))))
    else if wParam = 0x207 ∨ wParam = 0x208 then
      let m1 := setKey m0 "type" (FlVal.s (if wParam = 0x207 then "mouseDown" else "mouseUp"))
      let m2 := setKey m1 "button" (FlVal.s "middle")
      let m3 := setKey m2 "x" (FlVal.f (px : Rat))
      HookResult.consumed 1 (SendEvent sinkAttached (setKey m3 "y" (FlVal.f (py : Rat))))
    else if wParam = 0x20a ∨ wParam = 0x20e then
      let m1 := setKey m0 "type" (FlVal.s "mouseScroll")
      let normalizedDelta : Rat := (wheelDelta : Rat) / 120
      let m2 :=
        if wParam = 0x20a then
          setKey (setKey m1 "deltaX" (FlVal.f 0)) "deltaY" (FlVal.f normalizedDelta)
        else
          setKey (setKey m1 "deltaX" (FlVal.f normalizedDelta)) "deltaY" (FlVal.f 0)
      HookResult.consumed 1 (SendEvent sinkAttached m2)
    else HookResult.forwarded
  else HookResult.forwarded

/-- The event-stream handler state: `event_sink` is the registered consumer
(consumers are identified by a number); none when no subscriber listens. -/
structure SinkState where
  event_sink : Option Nat
deriving DecidableEq

/-- Embeds EventStreamHandler::OnListenInternal: store the new sink,
replacing any previous one. -/
def OnListen (_s : SinkState) (c : Nat) : SinkState := { event_sink := some c }

/-- Embeds EventStreamHandler::OnCancelInternal: clear the sink. -/
def OnCancel (_s : SinkState) : SinkState := { event_sink := none }

/-- SendEvent against a sink state: the list of (consumer, event) deliveries
performed — empty when no consumer is registered. -/
def SendToSink (s : SinkState) (ev : EventMap) : List (Nat × EventMap) :=
  match s.event_sink with
  | some c => [(c, ev)]
  | none => []

/-- Resource-level actions performed by the Linux plugin lifecycle code, in
the order the corresponding X11/pthread calls appear. -/
inductive XAct where
  | openDisplay
  | closeDisplay
  | allocRange
  | freeRange
  | createContext
  | disableContext
  | freeContext
  | createThread
  | joinThread
deriving DecidableEq, Fintype

/-- The OS capture resources of the Linux plugin. -/
inductive LRes where
  | display
  | range
  | context
  | thread
deriving DecidableEq, Fintype

/-- Which resource an action acquires, if any. -/
def acqRes : XAct → Option LRes
  | XAct.openDisplay => some LRes.display
  | XAct.allocRange => some LRes.range
  | XAct.createContext => some LRes.context
  | XAct.createThread => some LRes.thread
  | _ => none

/-- Which resource an action releases, if any (joining the worker releases
the thread resource; disabling the context releases nothing). -/
def relRes : XAct → Option LRes
  | XAct.closeDisplay => some LRes.display
  | XAct.freeRange => some LRes.range
  | XAct.freeContext => some LRes.context
  | XAct.joinThread => some LRes.thread
  | _ => none

/-- Resources acquired along a trace, in order. -/
def acquiredList (t : List XAct) : List LRes := t.filterMap acqRes

/-- Resources released along a trace, in order. -/
def releasedList (t : List XAct) : List LRes := t.filterMap relRes

/-- The fields of _InputCapturePlugin that the capture lifecycle touches:
whether record_display, record_context and the worker thread are held, plus
the is_capturing and thread_running flags. -/
structure LinuxState where
  recordDisplay : Bool
  recordContext : Bool
  threadSpawned : Bool
  is_capturing : Bool
  thread_running : Bool
deriving DecidableEq, Fintype

/-- Success/failure of each fallible acquisition step inside start_capture:
XOpenDisplay, XRecordAllocRange, XRecordCreateContext, pthread_create. -/
structure LinuxEnv where
  openDisplayOk : Bool
  allocRangeOk : Bool
  createContextOk : Bool
  createThreadOk : Bool
deriving DecidableEq, Fintype

/-- The plugin state right after input_capture_plugin_init. -/
def linuxIdle : LinuxState :=
  { recordDisplay := false, recordContext := false, threadSpawned := false,
    is_capturing := false, thread_running := false }

/-- The plugin state after a successful start_capture. -/
def linuxRunning : LinuxState :=
  { recordDisplay := true, recordContext := true, threadSpawned := true,
    is_capturing := true, thread_running := true }

/-- Embeds start_capture (Linux): returns the new state and the trace of
resource actions performed, following the source's acquisition order and its
failure cleanup paths (XFree of the range happens right after
XRecordCreateContext in every path that reaches it). -/
def start_capture (env : LinuxEnv) (s : LinuxState) : LinuxState × List XAct :=
  if s.is_capturing then (s, [])
  else if ¬ env.openDisplayOk then ({ s with recordDisplay := false }, [])
  else if ¬ env.allocRangeOk then
    ({ s with recordDisplay := false }, [XAct.openDisplay, XAct.closeDisplay])
  else if ¬ env.createContextOk then
    ({ s with recordDisplay := false, recordContext := false },
     [XAct.openDisplay, XAct.allocRange, XAct.freeRange, XAct.closeDisplay])
  else if ¬ env.createThreadOk then
    ({ s with recordDisplay := false, recordContext := false },
     [XAct.openDisplay, XAct.allocRange, XAct.createContext, XAct.freeRange,
      XAct.freeContext, XAct.closeDisplay])
  else
    ({ recordDisplay := true, recordContext := true, threadSpawned := true,
       is_capturing := true, thread_running := true },
     [XAct.openDisplay, XAct.allocRange, XAct.createContext, XAct.freeRange,
      XAct.createThread])

/-- Embeds stop_capture (Linux): no-op when not capturing; otherwise disable
and free the record context, join the worker thread, then close the record
display, in exactly that order. -/
def stop_capture (s : LinuxState) : LinuxState × List XAct :=
  if ¬ s.is_capturing then (s, [])
  else
    ({ recordDisplay := false, recordContext := false, threadSpawned := false,
       is_capturing := false, thread_running := false },
     (if s.recordContext then [XAct.disableContext, XAct.freeContext] else []) ++
     [XAct.joinThread] ++
     (if s.recordDisplay then [XAct.closeDisplay] else []))

/-- One external call into the Linux controller. -/
inductive LOp where
  | start (env : LinuxEnv)
  | stop
deriving DecidableEq, Fintype

/-- State after one Linux controller call. -/
def runLOp (s : LinuxState) (op : LOp) : LinuxState :=
  match op with
  | LOp.start env => (start_capture env s).1
  | LOp.stop => (stop_capture s).1

/-- State after a sequence of Linux controller calls. -/
def runLOps (s : LinuxState) (ops : List LOp) : LinuxState := ops.foldl runLOp s

/-- The Windows plugin lifecycle state: the two hook handles and the
is_capturing flag. -/
structure WinState where
  keyboard_hook : Bool
  mouse_hook : Bool
  is_capturing : Bool
deriving DecidableEq, Fintype

/-- Success/failure of the two SetWindowsHookEx calls inside StartCapture. -/
structure WinEnv where
  keyboardHookOk : Bool
  mouseHookOk : Bool
deriving DecidableEq, Fintype

/-- Hook-level actions performed by the Windows plugin lifecycle code. -/
inductive WAct where
  | installKeyboardHook
  | installMouseHook
  | removeKeyboardHook
  | removeMouseHook
deriving DecidableEq, Fintype

/-- The plugin state right after the InputCapturePlugin constructor. -/
def winIdle : WinState :=
  { keyboard_hook := false, mouse_hook := false, is_capturing := false }

/-- The plugin state after a successful StartCapture. -/
def winRunning : WinState :=
  { keyboard_hook := true, mouse_hook := true, is_capturing := true }

/-- Embeds InputCapturePlugin::StartCapture: returns the new state, the bool
result, and the trace of hook actions. Keyboard hook first; failure of the
mouse hook unhooks the already-installed keyboard hook. -/
def StartCapture (env : WinEnv) (s : WinState) : WinState × Bool × List WAct :=
  if s.is_capturing then (s, true, [])
  else if ¬ env.keyboardHookOk then ({ s with keyboard_hook := false }, false, [])
  else if ¬ env.mouseHookOk then
    ({ s with keyboard_hook := false, mouse_hook := false }, false,
     [WAct.installKeyboardHook, WAct.removeKeyboardHook])
  else
    ({ keyboard_hook := true, mouse_hook := true, is_capturing := true }, true,
     [WAct.installKeyboardHook, WAct.installMouseHook])

/-- Embeds InputCapturePlugin::StopCapture: no-op when not capturing;
otherwise unhook keyboard then mouse and clear the flag. -/
def StopCapture (s : WinState) : WinState × List WAct :=
  if ¬ s.is_capturing then (s, [])
  else
    ({ keyboard_hook := false, mouse_hook := false, is_capturing := false },
     (if s.keyboard_hook then [WAct.removeKeyboardHook] else []) ++
     (if s.mouse_hook then [WAct.removeMouseHook] else []))

/-- One external call into the Windows controller. -/
inductive WOp where
  | start (env : WinEnv)
  | stop
deriving DecidableEq, Fintype

/-- State after one Windows controller call. -/
def runWOp (s : WinState) (op : WOp) : WinState :=
  match op with
  | WOp.start env => (StartCapture env s).1
  | WOp.stop => (StopCapture s).1

/-- State after a sequence of Windows controller calls. -/
def runWOps (s : WinState) (ops : List WOp) : WinState := ops.foldl runWOp s

/-- Embeds the "startCapture" branch of method_call_cb (Linux): run
start_capture, then answer with the current is_capturing flag. -/
def methodStartCaptureLinux (env : LinuxEnv) (s : LinuxState) : LinuxState × Bool :=
  ((start_capture env s).1, (start_capture env s).1.is_capturing)

/-- Embeds the "stopCapture" branch of method_call_cb (Linux): run
stop_capture, then answer TRUE. -/
def methodStopCaptureLinux (s : LinuxState) : LinuxState × Bool :=
  ((stop_capture s).1, true)

/-- Embeds the "isCapturing" branch of method_call_cb (Linux). -/
def methodIsCapturingLinux (s : LinuxState) : Bool := s.is_capturing

/-- Embeds the "startCapture" branch of HandleMethodCall (Windows): answer
with the bool StartCapture returned. -/
def methodStartCaptureWin (env : WinEnv) (s : WinState) : WinState × Bool :=
  ((StartCapture env s).1, (StartCapture env s).2.1)

/-- Embeds the "stopCapture" branch of HandleMethodCall (Windows): run
StopCapture, then answer true. -/
def methodStopCaptureWin (s : WinState) : WinState × Bool :=
  ((StopCapture s).1, true)

/-- Embeds the "isCapturing" branch of HandleMethodCall (Windows). -/
def methodIsCapturingWin (s : WinState) : Bool := s.is_capturing

lemma linux_step_reach (op : LOp) (s : LinuxState)
    (hs : s = linuxIdle ∨ s = linuxRunning) :
    runLOp s op = linuxIdle ∨ runLOp s op = linuxRunning := by
  rcases hs with h | h <;> subst h <;> revert op <;> decide

lemma linux_reach (ops : List LOp) (s : LinuxState)
    (hs : s = linuxIdle ∨ s = linuxRunning) :
    runLOps s ops = linuxIdle ∨ runLOps s ops = linuxRunning := by
  induction ops generalizing s with
  | nil => exact hs
  | cons op ops ih => exact ih (runLOp s op) (linux_step_reach op s hs)

lemma win_step_reach (op : WOp) (s : WinState)
    (hs : s = winIdle ∨ s = winRunning) :
    runWOp s op = winIdle ∨ runWOp s op = winRunning := by
  rcases hs with h | h <;> subst h <;> revert op <;> decide

lemma win_reach (ops : List WOp) (s : WinState)
    (hs : s = winIdle ∨ s = winRunning) :
    runWOps s ops = winIdle ∨ runWOps s ops = winRunning := by
  induction ops generalizing s with
  | nil => exact hs
  | cons op ops ih => exact ih (runWOp s op) (win_step_reach op s hs)

/-- C1: along every Start/Stop call sequence from the initial Idle state, the
controller holds no OS capture resource whenever it is not capturing (record
display, record context, worker thread on Linux; keyboard and mouse hooks on
Windows); a Start while already Running performs no resource action at all;
and both Start and Stop are idempotent on the controller state. -/
theorem capture_lifecycle_invariant :
    (∀ ops : List LOp, (runLOps linuxIdle ops).is_capturing = false →
        (runLOps linuxIdle ops).recordDisplay = false ∧
        (runLOps linuxIdle ops).recordContext = false ∧
        (runLOps linuxIdle ops).threadSpawned = false) ∧
    (∀ ops : List WOp, (runWOps winIdle ops).is_capturing = false →
        (runWOps winIdle ops).keyboard_hook = false ∧
        (runWOps winIdle ops).mouse_hook = false) ∧
    (∀ env s, s.is_capturing = true → start_capture env s = (s, [])) ∧
    (∀ env s, s.is_capturing = true → StartCapture env s = (s, true, [])) ∧
    (∀ env s, (start_capture env (start_capture env s).1).1 = (start_capture env s).1) ∧
    (∀ s, (stop_capture (stop_capture s).1).1 = (stop_capture s).1) ∧
    (∀ env s, (StartCapture env (StartCapture env s).1).1 = (StartCapture env s).1) ∧
    (∀ s, (StopCapture (StopCapture s).1).1 = (StopCapture s).1) := by
  refine ⟨?_, ?_, by decide, by decide, by decide, by decide, by decide, by decide⟩
  · intro ops h
    rcases linux_reach ops linuxIdle (Or.inl rfl) with h2 | h2
    · rw [h2]; exact ⟨rfl, rfl, rfl⟩
    · rw [h2] at h; exact absurd h (by decide)
  · intro ops h
    rcases win_reach ops winIdle (Or.inl rfl) with h2 | h2
    · rw [h2]; exact ⟨rfl, rfl⟩
    · rw [h2] at h; exact absurd h (by decide)

theorem capture_lifecycle_invariant_witness :
    ((runLOps linuxIdle [LOp.start ⟨true, true, true, true⟩, LOp.stop]).recordDisplay = false ∧
     (runLOps linuxIdle [LOp.start ⟨true, true, true, true⟩, LOp.stop]).recordContext = false ∧
     (runLOps linuxIdle [LOp.start ⟨true, true, true, true⟩, LOp.stop]).threadSpawned = false) ∧
    start_capture ⟨true, true, true, true⟩ linuxRunning = (linuxRunning, []) ∧
    StartCapture ⟨true, true⟩ winRunning = (winRunning, true, []) :=
  ⟨capture_lifecycle_invariant.1 _ (by decide),
   capture_lifecycle_invariant.2.2.1 _ _ (by decide),
   capture_lifecycle_invariant.2.2.2.1 _ _ (by decide)⟩

/-- C7: startCapture answers exactly the is_capturing flag after the call (a
no-op answering true when already running), and stopCapture always answers
true with isCapturing false afterwards — on both platforms. -/
theorem method_return_semantics :
    (∀ env s, (methodStartCaptureLinux env s).2 =
        (methodStartCaptureLinux env s).1.is_capturing) ∧
    (∀ env s, s.is_capturing = true → methodStartCaptureLinux env s = (s, true)) ∧
    (∀ s, (methodStopCaptureLinux s).2 = true ∧
        methodIsCapturingLinux (methodStopCaptureLinux s).1 = false) ∧
    (∀ env s, (methodStartCaptureWin env s).2 =
        (methodStartCaptureWin env s).1.is_capturing) ∧
    (∀ env s, s.is_capturing = true → methodStartCaptureWin env s = (s, true)) ∧
    (∀ s, (methodStopCaptureWin s).2 = true ∧
        methodIsCapturingWin (methodStopCaptureWin s).1 = false) := by
  refine ⟨by decide, by decide, by decide, by decide, by decide, by decide⟩

theorem method_return_semantics_witness :
    methodStartCaptureLinux ⟨true, true, true, true⟩ linuxRunning = (linuxRunning, true) ∧
    methodStartCaptureWin ⟨true, true⟩ winRunning = (winRunning, true) :=
  ⟨method_return_semantics.2.1 _ _ (by decide),
   method_return_semantics.2.2.2.2.1 _ _ (by decide)⟩

/-- C9: sending an event delivers it to the registered consumer when one is
registered and is a silent no-op when none is; registering a consumer
replaces the previous one, so at most one is ever active. -/
theorem sink_semantics :
    (∀ ev, SendToSink { event_sink := none } ev = []) ∧
    (∀ c ev, SendToSink { event_sink := some c } ev = [(c, ev)]) ∧
    (∀ s c, OnListen s c = { event_sink := some c }) ∧
    (∀ s c c2, OnListen (OnListen s c) c2 = { event_sink := some c2 }) ∧
    (∀ s, OnCancel s = { event_sink := none }) ∧
    (∀ ev, SendEvent false ev = []) ∧
    (∀ ev, SendEvent true ev = [ev]) :=
  ⟨fun _ => rfl, fun _ _ => rfl, fun _ _ => rfl, fun _ _ _ => rfl,
   fun _ => rfl, fun _ => rfl, fun _ => rfl⟩

/-- C3 counterexample: when spawning the worker thread fails, the failed
Start releases [range, context, display], which is not the reverse of the
acquisition order [display, range, context] — the transient record range is
freed immediately after context creation, before the failure is detected. -/
theorem start_rollback_counterexample :
    (start_capture
        { openDisplayOk := true, allocRangeOk := true,
          createContextOk := true, createThreadOk := false } linuxIdle).1.is_capturing
      = false ∧
    acquiredList (start_capture ⟨true, true, true, false⟩ linuxIdle).2 =
      [LRes.display, LRes.range, LRes.context] ∧
    releasedList (start_capture ⟨true, true, true, false⟩ linuxIdle).2 =
      [LRes.range, LRes.context, LRes.display] ∧
    releasedList (start_capture ⟨true, true, true, false⟩ linuxIdle).2 ≠
      (acquiredList (start_capture ⟨true, true, true, false⟩ linuxIdle).2).reverse := by
  decide

/-- C3 amended: a failed Start releases every resource it acquired in that
attempt (per-resource release counts equal acquisition counts) and leaves the
controller Idle with zero held resources; mouse-hook failure rolls back the
keyboard hook; the release order is the exact reverse of acquisition in every
failure case except worker-thread spawn failure, where the transient record
range was already freed right after context creation. -/
theorem start_failure_releases_all :
    (∀ env : LinuxEnv, (start_capture env linuxIdle).1.is_capturing = false →
        (start_capture env linuxIdle).1 = linuxIdle ∧
        ∀ r : LRes, (releasedList (start_capture env linuxIdle).2).count r =
          (acquiredList (start_capture env linuxIdle).2).count r) ∧
    (∀ env : LinuxEnv, env.createThreadOk = true →
        (start_capture env linuxIdle).1.is_capturing = false →
        releasedList (start_capture env linuxIdle).2 =
          (acquiredList (start_capture env linuxIdle).2).reverse) ∧
    (∀ env : WinEnv, (StartCapture env winIdle).2.1 = false →
        (StartCapture env winIdle).1 = winIdle) ∧
    (StartCapture { keyboardHookOk := true, mouseHookOk := false } winIdle).2.2 =
      [WAct.installKeyboardHook, WAct.removeKeyboardHook] := by
  refine ⟨by decide, by decide, by decide, by decide⟩

theorem start_failure_releases_all_witness :
    (start_capture ⟨true, false, true, true⟩ linuxIdle).1 = linuxIdle ∧
    (releasedList (start_capture ⟨true, false, true, true⟩ linuxIdle).2).count LRes.display =
      (acquiredList (start_capture ⟨true, false, true, true⟩ linuxIdle).2).count LRes.display ∧
    (StartCapture { keyboardHookOk := true, mouseHookOk := false } winIdle).1 = winIdle :=
  ⟨(start_failure_releases_all.1 _ (by decide)).1,
   (start_failure_releases_all.1 _ (by decide)).2 LRes.display,
   start_failure_releases_all.2.2.1 _ (by decide)⟩

/-- C4 counterexample: Stop from the running state performs
[disableContext, freeContext, joinThread, closeDisplay]; freeContext is a
release of an OS capture resource (the record context) and happens before the
worker join, contradicting "never releases a resource before the worker has
terminated". -/
theorem stop_release_order_counterexample :
    (stop_capture linuxRunning).2 =
      [XAct.disableContext, XAct.freeContext, XAct.joinThread, XAct.closeDisplay] ∧
    relRes XAct.freeContext = some LRes.context ∧
    (stop_capture linuxRunning).2.indexOf XAct.freeContext <
      (stop_capture linuxRunning).2.indexOf XAct.joinThread := by
  decide

/-- C4 amended: Stop on the kernel-stream platform always joins the worker;
it disables and also frees the record context before the join (the disable
makes the blocking enable call return), and only after the join does it close
the record display connection; afterwards the controller is Idle with zero
held resources. -/
theorem stop_join_order (s : LinuxState) (h : s.is_capturing = true) :
    XAct.joinThread ∈ (stop_capture s).2 ∧
    (s.recordContext = true →
        (stop_capture s).2.indexOf XAct.disableContext <
          (stop_capture s).2.indexOf XAct.joinThread ∧
        (stop_capture s).2.indexOf XAct.freeContext <
          (stop_capture s).2.indexOf XAct.joinThread) ∧
    (∀ i : Fin (stop_capture s).2.length,
        (stop_capture s).2.get i = XAct.closeDisplay →
        (stop_capture s).2.indexOf XAct.joinThread < (i : Nat)) ∧
    (stop_capture s).1 = linuxIdle := by
  revert h
  revert s
  decide

theorem stop_join_order_witness :
    XAct.joinThread ∈ (stop_capture linuxRunning).2 ∧
    (stop_capture linuxRunning).1 = linuxIdle :=
  ⟨(stop_join_order linuxRunning (by decide)).1,
   (stop_join_order linuxRunning (by decide)).2.2.2⟩

/-- Modelled from the spec: the canonical symbolic key names the spec
enumerates for non-printable keys. -/
def specCanonicalKeyNames : List String :=
  ["Return", "Tab", "Backspace", "Escape", "Delete", "Home", "End",
   "PageUp", "PageDown", "Left", "Right", "Up", "Down",
   "F1", "F2", "F3", "F4", "F5", "F6", "F7", "F8", "F9", "F10", "F11", "F12",
   "Shift", "Control", "Alt", "Meta"]

/-- The symbolic names the code actually produces: the spec's canonical set
plus "Super" (Linux meta keys) and "Space" (Windows space key). -/
def producedKeyNames : List String := specCanonicalKeyNames ++ ["Super", "Space"]

/-- C6 counterexample: the Linux meta key (XK_Super_L = 65515) decodes to
"Super", which is not a single printable character, not one of the spec's
canonical symbolic names, and not the "Key" fallback embedding the code. -/
theorem super_key_name_counterexample :
    keycode_to_string 65515 = "Super" ∧
    "Super" ∉ specCanonicalKeyNames ∧
    (keycode_to_string 65515).length ≠ 1 ∧
    keycode_to_string 65515 ≠ "Key" ++ toString 65515 := by
  refine ⟨rfl, by decide, by decide, by decide⟩

/-- C6 amended: every KeySym (Linux) and every virtual-key code (Windows)
decodes to a single printable character, or to a symbolic name from the
canonical set extended with "Super" (Linux meta keys) and "Space" (Windows
space key), or to the deterministic fallback "Key" followed by the decimal
raw code; the code for ASCII letter a yields "a" on both platforms. -/
theorem key_name_characterization :
    (∀ k : Nat,
        (∃ n : Nat, 0x20 ≤ n ∧ n ≤ 0x7e ∧ keycode_to_string k = String.mk [Char.ofNat n]) ∨
        keycode_to_string k ∈ producedKeyNames ∨
        keycode_to_string k = "Key" ++ toString k) ∧
    (∀ k : Nat,
        (∃ n : Nat, 0x20 ≤ n ∧ n ≤ 0x7e ∧ VKeyToString k = String.mk [Char.ofNat n]) ∨
        VKeyToString k ∈ producedKeyNames ∨
        VKeyToString k = "Key" ++ toString k) ∧
    keycode_to_string 0x61 = "a" ∧
    VKeyToString 0x41 = "a" := by
  refine ⟨?_, ?_, by decide, by decide⟩
  · intro k
    by_cases h0 : 0x20 ≤ k ∧ k ≤ 0x7e
    · exact Or.inl ⟨k, h0.1, h0.2, by rw [keycode_to_string, if_pos h0]⟩
    · rw [keycode_to_string, if_neg h0]
      cases hfind : linuxKeySymTable.find? (fun e => e.1.contains k) with
      | none => exact Or.inr (Or.inr rfl)
      | some e =>
          have he : e ∈ linuxKeySymTable := List.mem_of_find?_eq_some hfind
          have hall : ∀ p ∈ linuxKeySymTable, p.2 ∈ producedKeyNames := by decide
          exact Or.inr (Or.inl (hall e he))
  · intro k
    by_cases h0 : 0x30 ≤ k ∧ k ≤ 0x39
    · exact Or.inl ⟨k, by omega, by omega, by rw [VKeyToString, if_pos h0]⟩
    · by_cases h1 : 0x41 ≤ k ∧ k ≤ 0x5a
      · exact Or.inl ⟨k + 32, by omega, by omega,
          by rw [VKeyToString, if_neg h0, if_pos h1]⟩
      · rw [VKeyToString, if_neg h0, if_neg h1]
        cases hfind : winVKeyTable.find? (fun e => e.1.contains k) with
        | none => exact Or.inr (Or.inr rfl)
        | some e =>
            have he : e ∈ winVKeyTable := List.mem_of_find?_eq_some hfind
            have hall : ∀ p ∈ winVKeyTable, p.2 ∈ producedKeyNames := by decide
            exact Or.inr (Or.inl (hall e he))

/-- The field-name sets of the events a hook invocation delivered. -/
def hookSentFieldSets (r : HookResult) : List (List String) :=
  match r with
  | HookResult.consumed _ sent => sent.map keysOf
  | HookResult.forwarded => []

/-- A raw ButtonPress record for button 4 (scroll up): event type byte 4,
detail byte 4, all other bytes zero. -/
def scrollSample : Nat → Nat := fun n => if n = 0 then 4 else if n = 1 then 4 else 0

/-- C2 counterexample: the Linux decode of a button-4 press yields a
mouseScroll event that still carries the x and y fields (set before the
scroll remap and never removed), contradicting "no x/y fields". -/
theorem scroll_retains_xy_counterexample :
    (record_event_callback (fun _ => 0) 0 0 scrollSample).map
        (fun m => (lookupKey m "type", keysOf m)) =
      some (some (FlVal.s "mouseScroll"),
        ["timestamp", "type", "x", "y", "deltaX", "deltaY"]) := by
  decide

/-- C2 amended: each decoded event carries exactly the fields its type
mandates — keyDown/keyUp: keyCode, key, modifiers and no mouse fields;
mouseMove: x, y; mouseDown/mouseUp: button, x, y; mouseScroll: deltaX and
deltaY with no button field, plus (on the kernel-stream platform only) the
x and y of the originating button record; every decode builds a fresh map,
so no stale fields survive from earlier events. -/
theorem decoded_field_sets :
    (∀ keymap now data, data 0 % 128 = 2 ∨ data 0 % 128 = 3 →
        (record_event_callback keymap now 0 data).map keysOf =
          some ["timestamp", "type", "keyCode", "key", "modifiers"]) ∧
    (∀ keymap now data, data 0 % 128 = 6 →
        (record_event_callback keymap now 0 data).map keysOf =
          some ["timestamp", "type", "x", "y"]) ∧
    (∀ keymap now data, (data 0 % 128 = 4 ∨ data 0 % 128 = 5) →
        ¬ (4 ≤ data 1 % 256 ∧ data 1 % 256 ≤ 7) →
        (record_event_callback keymap now 0 data).map keysOf =
          some ["timestamp", "type", "button", "x", "y"]) ∧
    (∀ keymap now data, (data 0 % 128 = 4 ∨ data 0 % 128 = 5) →
        (4 ≤ data 1 % 256 ∧ data 1 % 256 ≤ 7) →
        (record_event_callback keymap now 0 data).map keysOf =
          some ["timestamp", "type", "x", "y", "deltaX", "deltaY"]) ∧
    (∀ nCode now wParam vk mods, 0 ≤ nCode →
        hookSentFieldSets (KeyboardHookProc nCode true true now wParam vk mods) =
          [["timestamp", "type", "keyCode", "key", "modifiers"]]) ∧
    (∀ nCode now px py wd, 0 ≤ nCode →
        hookSentFieldSets (MouseHookProc nCode true true now 0x200 px py wd) =
          [["timestamp", "type", "x", "y"]]) ∧
    (∀ nCode now px py wd wParam, 0 ≤ nCode →
        (wParam = 0x201 ∨ wParam = 0x202 ∨ wParam = 0x204 ∨ wParam = 0x205 ∨
         wParam = 0x207 ∨ wParam = 0x208) →
        hookSentFieldSets (MouseHookProc nCode true true now wParam px py wd) =
          [["timestamp", "type", "button", "x", "y"]]) ∧
    (∀ nCode now px py wd wParam, 0 ≤ nCode → (wParam = 0x20a ∨ wParam = 0x20e) →
        hookSentFieldSets (MouseHookProc nCode true true now wParam px py wd) =
          [["timestamp", "type", "deltaX", "deltaY"]]) := by
  refine ⟨?_, ?_, ?_, ?_, ?_, ?_, ?_, ?_⟩
  · intro keymap now data h
    rcases h with h | h <;>
      simp [record_event_callback, h, setKey, keysOf]
  · intro keymap now data h
    simp [record_event_callback, h, setKey, keysOf]
  · intro keymap now data h hb
    rcases h with h | h <;>
      simp [record_event_callback, h, hb, setKey, keysOf]
  · intro keymap now data h hb
    rcases h with h | h <;>
      simp [record_event_callback, h, hb, setKey, removeKey, keysOf]
  · intro nCode now wParam vk mods hn
    simp [KeyboardHookProc, SendEvent, hookSentFieldSets, hn, setKey, keysOf]
  · intro nCode now px py wd hn
    simp [MouseHookProc, SendEvent, hookSentFieldSets, hn, setKey, keysOf]
  · intro nCode now px py wd wParam hn hw
    rcases hw with hw | hw | hw | hw | hw | hw <;>
      simp [MouseHookProc, SendEvent, hookSentFieldSets, hn, hw, setKey, keysOf]
  · intro nCode now px py wd wParam hn hw
    rcases hw with hw | hw <;>
      simp [MouseHookProc, SendEvent, hookSentFieldSets, hn, hw, setKey, keysOf]

theorem decoded_field_sets_witness :
    (record_event_callback (fun _ => 0) 0 0 (fun _ => 2)).map keysOf =
      some ["timestamp", "type", "keyCode", "key", "modifiers"] ∧
    hookSentFieldSets (MouseHookProc 0 true true 0 0x20a 0 0 120) =
      [["timestamp", "type", "deltaX", "deltaY"]] :=
  ⟨decoded_field_sets.1 (fun _ => 0) 0 (fun _ => 2) (by decide),
   decoded_field_sets.2.2.2.2.2.2.2 0 0 0 0 120 0x20a (by decide) (by decide)⟩

/-- C5: button-press records with button number 4, 5, 6 or 7 decode to
mouseScroll events with no button field, and deltas of magnitude exactly 1
with the sign per direction: 4 gives deltaY = 1, 5 gives deltaY = -1,
6 gives deltaX = 1, 7 gives deltaX = -1 (the other delta is 0). -/
theorem scroll_button_semantics (keymap : Nat → Nat) (now : Int) (data : Nat → Nat)
    (h0 : data 0 % 128 = 4) (hb : 4 ≤ data 1 % 256 ∧ data 1 % 256 ≤ 7) :
    (record_event_callback keymap now 0 data).map (fun m => lookupKey m "type") =
      some (some (FlVal.s "mouseScroll")) ∧
    (record_event_callback keymap now 0 data).map (fun m => lookupKey m "button") =
      some none ∧
    (data 1 % 256 = 4 →
        (record_event_callback keymap now 0 data).map
          (fun m => (lookupKey m "deltaX", lookupKey m "deltaY")) =
        some (some (FlVal.f 0), some (FlVal.f 1))) ∧
    (data 1 % 256 = 5 →
        (record_event_callback keymap now 0 data).map
          (fun m => (lookupKey m "deltaX", lookupKey m "deltaY")) =
        some (some (FlVal.f 0), some (FlVal.f (-1)))) ∧
    (data 1 % 256 = 6 →
        (record_event_callback keymap now 0 data).map
          (fun m => (lookupKey m "deltaX", lookupKey m "deltaY")) =
        some (some (FlVal.f 1), some (FlVal.f 0))) ∧
    (data 1 % 256 = 7 →
        (record_event_callback keymap now 0 data).map
          (fun m => (lookupKey m "deltaX", lookupKey m "deltaY")) =
        some (some (FlVal.f (-1)), some (FlVal.f 0))) := by
  have hb4 : data 1 % 256 = 4 ∨ data 1 % 256 = 5 ∨ data 1 % 256 = 6 ∨
      data 1 % 256 = 7 := by omega
  rcases hb4 with h | h | h | h <;>
    simp [record_event_callback, h0, h, setKey, removeKey, lookupKey]

theorem scroll_button_semantics_witness :
    (record_event_callback (fun _ => 0) 0 0 scrollSample).map
        (fun m => lookupKey m "button") = some none ∧
    (record_event_callback (fun _ => 0) 0 0 scrollSample).map
        (fun m => (lookupKey m "deltaX", lookupKey m "deltaY")) =
      some (some (FlVal.f 0), some (FlVal.f 1)) :=
  ⟨(scroll_button_semantics (fun _ => 0) 0 scrollSample (by decide) (by decide)).2.1,
   (scroll_button_semantics (fun _ => 0) 0 scrollSample (by decide)
      (by decide)).2.2.1 (by decide)⟩

/-- C8: records the decoder does not recognize produce no event at all —
non-from-server categories and unknown event subtypes on the kernel-stream
platform yield none, and unknown mouse wParam values on the hook-callback
platform forward down the hook chain with nothing delivered. -/
theorem unrecognized_records_dropped :
    (∀ keymap now category data, category ≠ 0 →
        record_event_callback keymap now category data = none) ∧
    (∀ keymap now data,
        ¬ (data 0 % 128 = 2 ∨ data 0 % 128 = 3 ∨ data 0 % 128 = 4 ∨
           data 0 % 128 = 5 ∨ data 0 % 128 = 6) →
        record_event_callback keymap now 0 data = none) ∧
    (∀ nCode instPresent sinkAttached now wParam px py wd,
        ¬ (wParam = 0x200 ∨ wParam = 0x201 ∨ wParam = 0x202 ∨ wParam = 0x204 ∨
           wParam = 0x205 ∨ wParam = 0x207 ∨ wParam = 0x208 ∨ wParam = 0x20a ∨
           wParam = 0x20e) →
        MouseHookProc nCode instPresent sinkAttached now wParam px py wd =
          HookResult.forwarded) := by
  refine ⟨?_, ?_, ?_⟩
  · intro keymap now category data h
    simp [record_event_callback, h]
  · intro keymap now data h
    push_neg at h
    obtain ⟨h2, h3, h4, h5, h6⟩ := h
    simp [record_event_callback, h2, h3, h4, h5, h6]
  · intro nCode instPresent sinkAttached now wParam px py wd h
    push_neg at h
    obtain ⟨h1, h2, h3, h4, h5, h6, h7, h8, h9⟩ := h
    by_cases hc : 0 ≤ nCode ∧ instPresent = true ∧ sinkAttached = true
    · simp [MouseHookProc, hc, h1, h2, h3, h4, h5, h6, h7, h8, h9]
    · simp [MouseHookProc, hc]

theorem unrecognized_records_dropped_witness :
    record_event_callback (fun _ => 0) 0 1 (fun _ => 0) = none ∧
    record_event_callback (fun _ => 0) 0 0 (fun _ => 0) = none ∧
    MouseHookProc 0 true true 0 0x300 0 0 0 = HookResult.forwarded :=
  ⟨unrecognized_records_dropped.1 (fun _ => 0) 0 1 (fun _ => 0) (by decide),
   unrecognized_records_dropped.2.1 (fun _ => 0) 0 (fun _ => 0) (by decide),
   unrecognized_records_dropped.2.2 0 true true 0 0x300 0 0 0 (by decide)⟩

/-- C10: a hook invocation consumes the event (sentinel -1 for keyboard, 1
for mouse, with at least one event delivered) only when the static instance
pointer is set and an event sink is attached (and nCode is non-negative);
whenever instance or sink is missing the callback forwards the event down
the chain and delivers nothing. -/
theorem hook_gating :
    (∀ nCode instPresent sinkAttached now wParam vk mods,
        ¬ (instPresent = true ∧ sinkAttached = true) →
        KeyboardHookProc nCode instPresent sinkAttached now wParam vk mods =
          HookResult.forwarded) ∧
    (∀ nCode instPresent sinkAttached now wParam px py wd,
        ¬ (instPresent = true ∧ sinkAttached = true) →
        MouseHookProc nCode instPresent sinkAttached now wParam px py wd =
          HookResult.forwarded) ∧
    (∀ nCode instPresent sinkAttached now wParam vk mods r sent,
        KeyboardHookProc nCode instPresent sinkAttached now wParam vk mods =
          HookResult.consumed r sent →
        instPresent = true ∧ sinkAttached = true ∧ 0 ≤ nCode ∧ r = -1 ∧ sent ≠ []) ∧
    (∀ nCode instPresent sinkAttached now wParam px py wd r sent,
        MouseHookProc nCode instPresent sinkAttached now wParam px py wd =
          HookResult.consumed r sent →
        instPresent = true ∧ sinkAttached = true ∧ 0 ≤ nCode ∧ r = 1 ∧ sent ≠ []) := by
  refine ⟨?_, ?_, ?_, ?_⟩
  · intro nCode instPresent sinkAttached now wParam vk mods h
    rw [KeyboardHookProc, if_neg (by tauto)]
  · intro nCode instPresent sinkAttached now wParam px py wd h
    rw [MouseHookProc, if_neg (by tauto)]
  · intro nCode instPresent sinkAttached now wParam vk mods r sent h
    by_cases hc : 0 ≤ nCode ∧ instPresent = true ∧ sinkAttached = true
    · rw [KeyboardHookProc, if_pos hc] at h
      obtain ⟨hr, hs⟩ := HookResult.consumed.inj h.symm
      exact ⟨hc.2.1, hc.2.2, hc.1, hr, by simp [hs, SendEvent, hc.2.2]⟩
    · rw [KeyboardHookProc, if_neg hc] at h
      exact absurd h (by simp)
  · intro nCode instPresent sinkAttached now wParam px py wd r sent h
    by_cases hc : 0 ≤ nCode ∧ instPresent = true ∧ sinkAttached = true
    · rw [MouseHookProc, if_pos hc] at h
      split_ifs at h <;>
        (obtain ⟨hr, hs⟩ := HookResult.consumed.inj h.symm
         exact ⟨hc.2.1, hc.2.2, hc.1, hr, by simp [hs, SendEvent, hc.2.2]⟩)
    · rw [MouseHookProc, if_neg hc] at h
      exact absurd h (by simp)

theorem hook_gating_witness :
    KeyboardHookProc 0 true false 0 0x100 65 ⟨false, false, false, false⟩ =
      HookResult.forwarded ∧
    MouseHookProc 0 false true 0 0x200 0 0 0 = HookResult.forwarded :=
  ⟨hook_gating.1 0 true false 0 0x100 65 ⟨false, false, false, false⟩ (by decide),
   hook_gating.2.1 0 false true 0 0x200 0 0 0 (by decide)⟩

end KeyboardPlayground
